import Mathlib

/-!
Verification of the motion-detection core of SimpleCV's GSoC demo
(`examples/GSoC Demo/AngleFromMotion.py`): the `MotionDetector` strategy
context, the concrete detection strategies, the `ROI` region type and the
`ROIHandler` dispatcher.

Frames (SimpleCV `Image` objects) are external to the repository: the
dispatcher only reads their `width`/`height` and calls `crop`, and the
strategies consume either the flattened difference matrix or the two mean
colors.  We therefore model a frame abstractly through an `ImgOps`
capability record, and feed each strategy exactly the observation the
Python code extracts from the frames.

Python dictionaries key objects by identity, so `ROI` carries an `oid`
field modelling the Python object id; the dispatcher mapping is an
association list keyed by `oid`.  Methods are embedded as state
transformers `ROIHandler → args → result × ROIHandler`; callbacks are
opaque tokens, and executing one is modelled by emitting the event
`(callback, region, image)`.
-/

/-- Python `ROI.__init__(self, x, y, width, height)`: region of interest.
`oid` models Python object identity (the implicit dictionary key). -/
structure ROI where
  oid : Nat
  x : Int
  y : Int
  width : Int
  height : Int
deriving DecidableEq, Repr

/-- The operations the dispatcher needs from the external frame type:
`image.height`, `image.width` and `image.crop(x, y, w, h)`. -/
structure ImgOps (Img : Type) where
  height : Img → Int
  width : Img → Int
  crop : Img → Int → Int → Int → Int → Img

/-- Python `class MotionDetector`: holds the instantiated strategy
(`self.concrete_strategy`), or `none` when constructed with a falsy
strategy argument. -/
structure MotionDetector (Img : Type) where
  concrete_strategy : Option (Img → Img → Bool)

namespace MotionDetector

/-- Python `MotionDetector.__init__(self, strategy)`:
`self.concrete_strategy = None; if strategy: self.concrete_strategy = strategy()`. -/
def init {Img : Type} (strategy : Option (Img → Img → Bool)) :
    MotionDetector Img :=
  match strategy with
  | some s => { concrete_strategy := some s }
  | none   => { concrete_strategy := none }

/-- Python `MotionDetector.isMoving(self, new_image, old_image)`: delegate to the
held strategy if present, else return `False`. -/
def isMoving {Img : Type} (md : MotionDetector Img)
    (new_image old_image : Img) : Bool :=
  match md.concrete_strategy with
  | some s => s new_image old_image
  | none   => false

end MotionDetector

namespace MotionDetectorByMatrix

/-- The counting loop of `MotionDetectorByMatrix.isMoving`:
`for pixel in flat_matrix: if flat_matrix[pixel] == 0: counter += 1`.
Note the source indexes the array with the pixel *value*; an out-of-range
value raises `IndexError`, modelled by `none`. -/
def countLoop (flat_matrix : List Nat) : Option Nat :=
  flat_matrix.foldlM
    (fun counter pixel =>
      match flat_matrix.get? pixel with
      | some v => some (if v == 0 then counter + 1 else counter)
      | none   => none)
    0

/-- Python `MotionDetectorByMatrix.isMoving`, applied to the flattened difference
matrix (`(new_image - old_image).getNumpy().flatten()`).  After the
counting loop, `percent_change = float(counter) / float(len(flat_matrix))`
(ZeroDivisionError on an empty matrix, modelled by `none`) and the result
is `percent_change > 0.5`. -/
def isMoving (flat_matrix : List Nat) : Option Bool := do
  let counter ← countLoop flat_matrix
  if flat_matrix.length = 0 then
    none
  else
    let percent_change : ℚ := (counter : ℚ) / (flat_matrix.length : ℚ)
    some (decide (percent_change > 0.5))

/-- Modelled from the spec: the decision rule the spec ascribes to
MatrixPercentage — count entries equal to 0, compute
`changed_fraction = 1 - zero_count / total_count`, return true iff
`changed_fraction > 0.5`.  Written to compare against `isMoving` above. -/
def isMovingSpecRule (flat_matrix : List Nat) : Bool :=
  let zero_count := (flat_matrix.filter (fun p => p == 0)).length
  let changed_fraction : ℚ :=
    1 - (zero_count : ℚ) / (flat_matrix.length : ℚ)
  decide (changed_fraction > 0.5)

end MotionDetectorByMatrix

namespace MotionDetectorByMeanColor

/-- Python `MotionDetectorByMeanColor.isMoving`, applied to the two mean colors
`new_image.meanColor()` and `old_image.meanColor()` (unpacked as
red/green/blue channels).  Threshold hard-coded to `0.1`; the source tests
`abs(new - old) >= threshold` on each channel. -/
def isMoving (newColor oldColor : ℚ × ℚ × ℚ) : Bool :=
  let threshold : ℚ := 0.1
  if |newColor.1 - oldColor.1| ≥ threshold ∨
     |newColor.2.1 - oldColor.2.1| ≥ threshold ∨
     |newColor.2.2 - oldColor.2.2| ≥ threshold then
    true
  else
    false

end MotionDetectorByMeanColor

namespace MotionDetectorByMockup

/-- Python `MotionDetectorByMockup.isMoving`: always detects motion. -/
def isMoving {Img : Type} (new_image old_image : Img) : Bool :=
  true

end MotionDetectorByMockup

/-- A concrete frame type used to instantiate the abstract `ImgOps`
interface in witnesses: width, height and an opaque content tag. -/
structure SimpleImage where
  width : Int
  height : Int
  tag : Nat
deriving DecidableEq, Repr

/-- Image operations for `SimpleImage`; `crop` returns a frame of the
requested size carrying the same content tag. -/
def simpleImageOps : ImgOps SimpleImage where
  height := fun image => image.height
  width := fun image => image.width
  crop := fun image _ _ w h => { width := w, height := h, tag := image.tag }

/-- Lookup in the Python dictionary `self.ROIDict`: keys are compared by
object identity, i.e. by `oid`. -/
def dictLookup {F : Type} (dict : List (ROI × F)) (region : ROI) :
    Option F :=
  match dict with
  | [] => none
  | e :: rest =>
    if e.1.oid = region.oid then some e.2 else dictLookup rest region

/-- Assignment `self.ROIDict[newROI] = func`: overwrite the value when the
key (the object identity) is already present, otherwise add the binding. -/
def dictInsert {F : Type} (dict : List (ROI × F)) (newROI : ROI)
    (func : F) : List (ROI × F) :=
  if dict.any (fun e => e.1.oid == newROI.oid) then
    dict.map (fun e => if e.1.oid = newROI.oid then (e.1, func) else e)
  else
    dict ++ [(newROI, func)]

/-- Python `class ROIHandler`: the region dispatcher, owning one
`MotionDetector` (`self.MotionDetector`) and the region-to-callback
mapping `self.ROIDict`.  `F` is the type of callback tokens. -/
structure ROIHandler (Img F : Type) where
  motionDetector : MotionDetector Img
  ROIDict : List (ROI × F)

namespace ROIHandler

/-- Python `ROIHandler.__init__(self, md_strategy)`. -/
def init {Img F : Type} (md_strategy : Option (Img → Img → Bool)) :
    ROIHandler Img F :=
  { motionDetector := MotionDetector.init md_strategy, ROIDict := [] }

/-- Python `ROIHandler.MapRegionToFunc(self, newROI, func)`: adds a new
ROI to the handler and maps a function to it. -/
def MapRegionToFunc {Img F : Type} (st : ROIHandler Img F) (newROI : ROI)
    (func : F) : ROIHandler Img F :=
  { st with ROIDict := dictInsert st.ROIDict newROI func }

/-- Python `ROIHandler.CheckRegionFits(self, region, image)`: checks if
the ROI fits in the given image. -/
def CheckRegionFits {Img F : Type} (ops : ImgOps Img)
    (st : ROIHandler Img F) (region : ROI) (image : Img) : Bool :=
  let region_total_height := region.y + region.height
  let region_total_width := region.x + region.width
  if region_total_height ≤ ops.height image ∧
     region_total_width ≤ ops.width image then
    true
  else
    false

/-- Python `ROIHandler.getRegionsMoving(self, new_image, old_image)`:
returns the list of registered ROIs with movement, and the handler state
after the call.  A region that fails the fit check against either frame
prints "Error: Region out of bounds of Image" and is skipped; one that
fits both frames is kept exactly when the detector reports motion on the
two cropped sub-images. -/
def getRegionsMoving {Img F : Type} (ops : ImgOps Img)
    (st : ROIHandler Img F) (new_image old_image : Img) :
    List ROI × ROIHandler Img F :=
  let ROI_with_movement :=
    (st.ROIDict.map Prod.fst).filter fun r =>
      if CheckRegionFits ops st r new_image &&
         CheckRegionFits ops st r old_image then
        let new_subimage := ops.crop new_image r.x r.y r.width r.height
        let old_subimage := ops.crop old_image r.x r.y r.width r.height
        st.motionDetector.isMoving new_subimage old_subimage
      else
        false
  (ROI_with_movement, st)

/-- Python `ROIHandler.ExecRegionFunc(self, region, image)`: executes the
function mapped to a ROI.  The call `self.ROIDict[region](region, image)`
is modelled by the emitted invocation event `(callback, region, image)`;
a missing key (Python `KeyError`) is modelled by `none`. -/
def ExecRegionFunc {Img F : Type} (st : ROIHandler Img F) (region : ROI)
    (image : Img) : Option (F × ROI × Img) × ROIHandler Img F :=
  ((dictLookup st.ROIDict region).map fun func => (func, region, image), st)

/-- Python `ROIHandler.ExecMovingRegionFuncs(self, new_image, old_image)`:
executes the functions mapped to the ROIs with movement, passing each the
region and the OLD frame.  The result is the list of invocation events
(`none` when some call raised `KeyError`), and the handler state after the
call. -/
def ExecMovingRegionFuncs {Img F : Type} (ops : ImgOps Img)
    (st : ROIHandler Img F) (new_image old_image : Img) :
    Option (List (F × ROI × Img)) × ROIHandler Img F :=
  let moving := (getRegionsMoving ops st new_image old_image).1
  (moving.mapM fun m => (ExecRegionFunc st m old_image).1, st)

end ROIHandler

/-- A sample region too large for a 10×10 frame, with object id 1. -/
def sampleRegionBig : ROI :=
  { oid := 1, x := 0, y := 0, width := 20, height := 20 }

/-- A sample region fitting a 10×10 frame, with object id 2. -/
def sampleRegionSmall : ROI :=
  { oid := 2, x := 0, y := 0, width := 5, height := 5 }

/-- A sample dispatcher over concrete frames using the always-true mockup
strategy, with callbacks numbered 1 and 2. -/
def sampleHandlerMock : ROIHandler SimpleImage Nat :=
  { motionDetector :=
      MotionDetector.init (some fun a b => MotionDetectorByMockup.isMoving a b)
    ROIDict := [(sampleRegionBig, 1), (sampleRegionSmall, 2)] }

/-- A sample region with object id 3; same geometry as its twin below. -/
def sampleRegionTwinA : ROI :=
  { oid := 3, x := 2, y := 3, width := 4, height := 5 }

/-- A sample region with object id 4 and the same geometry as the twin
above: structurally equal fields, distinct object identity. -/
def sampleRegionTwinB : ROI :=
  { oid := 4, x := 2, y := 3, width := 4, height := 5 }

/-- A sample new frame of size 10×10. -/
def sampleNewFrame : SimpleImage := { width := 10, height := 10, tag := 0 }

/-- A sample old frame of size 10×10 with different content. -/
def sampleOldFrame : SimpleImage := { width := 10, height := 10, tag := 1 }

namespace ROIHandler

/-- Unfolding lemma for the fit check. -/
lemma checkRegionFits_iff {Img F : Type} (ops : ImgOps Img)
    (st : ROIHandler Img F) (region : ROI) (image : Img) :
    CheckRegionFits ops st region image = true ↔
      (region.y + region.height ≤ ops.height image ∧
       region.x + region.width ≤ ops.width image) := by
  simp [CheckRegionFits]

/-- Membership in the list returned by `getRegionsMoving`: exactly the
registered regions that fit both frames and whose cropped sub-images the
detector reports as moving. -/
lemma mem_getRegionsMoving_iff {Img F : Type} (ops : ImgOps Img)
    (st : ROIHandler Img F) (new_image old_image : Img) (r : ROI) :
    r ∈ (getRegionsMoving ops st new_image old_image).1 ↔
      (r ∈ st.ROIDict.map Prod.fst ∧
       CheckRegionFits ops st r new_image = true ∧
       CheckRegionFits ops st r old_image = true ∧
       st.motionDetector.isMoving
         (ops.crop new_image r.x r.y r.width r.height)
         (ops.crop old_image r.x r.y r.width r.height) = true) := by
  simp only [getRegionsMoving, List.mem_filter]
  constructor
  · rintro ⟨hmem, hpred⟩
    refine ⟨hmem, ?_⟩
    rcases hnew : CheckRegionFits ops st r new_image with _ | _ <;>
      rcases hold : CheckRegionFits ops st r old_image with _ | _ <;>
        simp [hnew, hold] at hpred <;> simp [hpred]
  · rintro ⟨hmem, hnew, hold, hmov⟩
    exact ⟨hmem, by simp [hnew, hold, hmov]⟩

/-- The regions returned by `getRegionsMoving` are registered regions. -/
lemma getRegionsMoving_subset_keys {Img F : Type} (ops : ImgOps Img)
    (st : ROIHandler Img F) (new_image old_image : Img) (r : ROI)
    (h : r ∈ (getRegionsMoving ops st new_image old_image).1) :
    r ∈ st.ROIDict.map Prod.fst :=
  ((mem_getRegionsMoving_iff ops st new_image old_image r).mp h).1

end ROIHandler

/-- Unfolding lemma for `dictLookup` on a non-empty dictionary. -/
lemma dictLookup_cons {F : Type} (e : ROI × F) (rest : List (ROI × F))
    (r : ROI) :
    dictLookup (e :: rest) r =
      if e.1.oid = r.oid then some e.2 else dictLookup rest r := rfl

/-- Looking up a registered key always succeeds. -/
lemma dictLookup_isSome_of_mem_keys {F : Type} (dict : List (ROI × F))
    (r : ROI) (h : r ∈ dict.map Prod.fst) :
    ∃ f, dictLookup dict r = some f := by
  induction dict with
  | nil => simp at h
  | cons e rest ih =>
    by_cases he : e.1.oid = r.oid
    · exact ⟨e.2, by simp [dictLookup, he]⟩
    · rw [List.map_cons] at h
      rcases List.mem_cons.mp h with h1 | h2
      · exact absurd (congrArg ROI.oid h1.symm) he
      · obtain ⟨f, hf⟩ := ih h2
        exact ⟨f, by simp [dictLookup, he, hf]⟩

/-- Overwriting an existing identity key makes lookup of that key return
the new value. -/
lemma dictLookup_map_overwrite {F : Type} (dict : List (ROI × F))
    (newROI : ROI) (func : F)
    (h : dict.any (fun e => e.1.oid == newROI.oid) = true) :
    dictLookup
      (dict.map (fun e => if e.1.oid = newROI.oid then (e.1, func) else e))
      newROI = some func := by
  induction dict with
  | nil => simp at h
  | cons e rest ih =>
    by_cases he : e.1.oid = newROI.oid
    · simp [dictLookup, he]
    · have hrest : rest.any (fun e => e.1.oid == newROI.oid) = true := by
        simpa [List.any_cons, he] using h
      simpa [dictLookup, he] using ih hrest

/-- Overwriting a key leaves lookup of any other identity unchanged. -/
lemma dictLookup_map_overwrite_ne {F : Type} (dict : List (ROI × F))
    (newROI r : ROI) (func : F) (hne : newROI.oid ≠ r.oid) :
    dictLookup
      (dict.map (fun e => if e.1.oid = newROI.oid then (e.1, func) else e))
      r = dictLookup dict r := by
  induction dict with
  | nil => rfl
  | cons e rest ih =>
    simp only [List.map_cons]
    by_cases he : e.1.oid = newROI.oid
    · simp [dictLookup_cons, he, hne, ih]
    · by_cases her : e.1.oid = r.oid
      · simp [dictLookup_cons, he, her, Ne.symm hne]
      · simp [dictLookup_cons, he, her, ih]

/-- Appending a fresh binding makes lookup of its key return its value. -/
lemma dictLookup_append_fresh {F : Type} (dict : List (ROI × F))
    (newROI : ROI) (func : F)
    (h : dict.any (fun e => e.1.oid == newROI.oid) = false) :
    dictLookup (dict ++ [(newROI, func)]) newROI = some func := by
  induction dict with
  | nil => simp [dictLookup]
  | cons e rest ih =>
    have he : ¬ e.1.oid = newROI.oid := by
      intro hcontra
      simp [List.any_cons, hcontra] at h
    have hrest : rest.any (fun e => e.1.oid == newROI.oid) = false := by
      simpa [List.any_cons, he] using h
    simpa [dictLookup, he] using ih hrest

/-- Appending a binding with a different identity leaves lookup
unchanged. -/
lemma dictLookup_append_ne {F : Type} (dict : List (ROI × F))
    (newROI r : ROI) (func : F) (hne : newROI.oid ≠ r.oid) :
    dictLookup (dict ++ [(newROI, func)]) r = dictLookup dict r := by
  induction dict with
  | nil => simp [dictLookup, dictLookup_cons, hne]
  | cons e rest ih =>
    by_cases her : e.1.oid = r.oid
    · simp [dictLookup_cons, her]
    · simp [dictLookup_cons, her, ih]

/-- Lookup after `dictInsert` of the same identity key. -/
lemma dictLookup_dictInsert_self {F : Type} (dict : List (ROI × F))
    (newROI : ROI) (func : F) :
    dictLookup (dictInsert dict newROI func) newROI = some func := by
  unfold dictInsert
  rcases h : dict.any (fun e => e.1.oid == newROI.oid) with _ | _
  · simpa [h] using dictLookup_append_fresh dict newROI func h
  · simpa [h] using dictLookup_map_overwrite dict newROI func h

/-- Lookup after `dictInsert` of a different identity key. -/
lemma dictLookup_dictInsert_ne {F : Type} (dict : List (ROI × F))
    (newROI r : ROI) (func : F) (hne : newROI.oid ≠ r.oid) :
    dictLookup (dictInsert dict newROI func) r = dictLookup dict r := by
  unfold dictInsert
  rcases h : dict.any (fun e => e.1.oid == newROI.oid) with _ | _
  · simpa [h] using dictLookup_append_ne dict newROI r func hne
  · simpa [h] using dictLookup_map_overwrite_ne dict newROI r func hne

/-- Mapping a total-on-`l` partial function over a list succeeds, and the
result is pointwise related to the inputs. -/
lemma mapM_option_forall2 {α β : Type} (f : α → Option β) :
    ∀ l : List α, (∀ a ∈ l, ∃ b, f a = some b) →
      ∃ bs, l.mapM f = some bs ∧
        List.Forall₂ (fun a b => f a = some b) l bs := by
  intro l
  induction l with
  | nil => exact fun _ => ⟨[], rfl, List.Forall₂.nil⟩
  | cons a rest ih =>
    intro h
    obtain ⟨b, hb⟩ := h a (List.mem_cons_self a rest)
    obtain ⟨bs, hbs, hrel⟩ := ih fun x hx => h x (List.mem_cons_of_mem a hx)
    refine ⟨b :: bs, ?_, hrel.cons hb⟩
    simp only [List.mapM_cons, hb, hbs]
    rfl

/-- Every element of the right list of a `Forall₂` is related to some
element of the left list. -/
lemma forall2_mem_right {α β : Type} {R : α → β → Prop} :
    ∀ {l : List α} {bs : List β}, List.Forall₂ R l bs →
      ∀ b ∈ bs, ∃ a ∈ l, R a b := by
  intro l bs h
  induction h with
  | nil => intro b hb; cases hb
  | cons hr _ ih =>
    intro b hb
    rcases List.mem_cons.mp hb with h1 | h2
    · exact ⟨_, List.mem_cons_self _ _, h1 ▸ hr⟩
    · obtain ⟨a, ha, har⟩ := ih b h2
      exact ⟨a, List.mem_cons_of_mem _ ha, har⟩

/-- C1: the spec says MatrixPercentage counts the zero entries of the
flattened difference, forms `changed_fraction = 1 - zero_count / total`,
and reports motion iff `changed_fraction > 0.5`.  The code does not: on
the all-zero flattened difference `[0, 0, 0, 0]` (identical frames,
changed fraction 0) it returns `some true`, while the spec's rule yields
`false` — the source counts `flat_matrix[pixel] == 0` (indexing by pixel
value) and compares that zero-pixel fraction itself, not its complement,
against 0.5. -/
theorem matrix_isMoving_contradicts_changed_fraction_rule :
    MotionDetectorByMatrix.isMoving [0, 0, 0, 0] = some true ∧
    MotionDetectorByMatrix.isMovingSpecRule [0, 0, 0, 0] = false := by
  constructor
  · norm_num [MotionDetectorByMatrix.isMoving,
      MotionDetectorByMatrix.countLoop, List.foldlM]
  · norm_num [MotionDetectorByMatrix.isMovingSpecRule]

/-- C2: the spec says MatrixPercentage returns false on two identical
frames (all-zero, non-empty difference).  The code returns true there:
every pixel value is 0, `flat_matrix[0] == 0` holds, so the counter equals
the length and `percent_change = 1.0 > 0.5`. -/
theorem matrix_isMoving_identical_frames_reports_motion :
    MotionDetectorByMatrix.isMoving [0, 0, 0] = some true := by
  norm_num [MotionDetectorByMatrix.isMoving,
    MotionDetectorByMatrix.countLoop, List.foldlM]

/-- C5: `CheckRegionFits` returns true iff
`region.y + region.height ≤ frame.height` and
`region.x + region.width ≤ frame.width`; a 10×10 region at (0,0) fits a
10×10 frame, while the same region at (1,0) does not. -/
theorem checkRegionFits_bounds_spec :
    (∀ (Img F : Type) (ops : ImgOps Img) (st : ROIHandler Img F)
        (region : ROI) (image : Img),
        ROIHandler.CheckRegionFits ops st region image = true ↔
          (region.y + region.height ≤ ops.height image ∧
           region.x + region.width ≤ ops.width image)) ∧
    ROIHandler.CheckRegionFits simpleImageOps
      (ROIHandler.init none : ROIHandler SimpleImage Nat)
      { oid := 0, x := 0, y := 0, width := 10, height := 10 }
      { width := 10, height := 10, tag := 0 } = true ∧
    ROIHandler.CheckRegionFits simpleImageOps
      (ROIHandler.init none : ROIHandler SimpleImage Nat)
      { oid := 0, x := 1, y := 0, width := 10, height := 10 }
      { width := 10, height := 10, tag := 0 } = false := by
  refine ⟨fun Img F ops st region image =>
    ROIHandler.checkRegionFits_iff ops st region image, ?_, ?_⟩ <;> decide

/-- C6 counterexample: the claim says MeanColorDelta reports motion iff
some channel's absolute mean-color difference is strictly greater than
0.1; but at a red-channel difference of exactly 1/10 the code reports
motion although no channel difference strictly exceeds 0.1. -/
theorem meanColor_boundary_delta_counterexample :
    MotionDetectorByMeanColor.isMoving (1/10, 0, 0) (0, 0, 0) = true ∧
    ¬(|(1 : ℚ)/10 - 0| > 0.1 ∨ |(0 : ℚ) - 0| > 0.1 ∨
      |(0 : ℚ) - 0| > 0.1) := by
  constructor
  · norm_num [MotionDetectorByMeanColor.isMoving, abs_of_nonneg]
  · norm_num [abs_of_nonneg]

/-- C6 (amended): MeanColorDelta reports motion iff some channel's
absolute mean-color difference is greater than OR EQUAL to the threshold
0.1 (the source compares with `>=`, not `>`). -/
theorem meanColor_isMoving_iff (newColor oldColor : ℚ × ℚ × ℚ) :
    MotionDetectorByMeanColor.isMoving newColor oldColor = true ↔
      (|newColor.1 - oldColor.1| ≥ 0.1 ∨
       |newColor.2.1 - oldColor.2.1| ≥ 0.1 ∨
       |newColor.2.2 - oldColor.2.2| ≥ 0.1) := by
  simp [MotionDetectorByMeanColor.isMoving]

/-- C7: a `MotionDetector` built with no strategy answers false on every
pair of frames, and one built with a strategy answers exactly what the
strategy answers. -/
theorem motionDetector_strategy_delegation :
    (∀ (Img : Type) (new_image old_image : Img),
        (MotionDetector.init none : MotionDetector Img).isMoving new_image
          old_image = false) ∧
    (∀ (Img : Type) (s : Img → Img → Bool) (new_image old_image : Img),
        (MotionDetector.init (some s)).isMoving new_image old_image
          = s new_image old_image) :=
  ⟨fun _ _ _ => rfl, fun _ _ _ _ => rfl⟩

/-- C3: a registered region that fails the fit check against either frame
never appears in `getRegionsMoving`'s output, its callback is never
invoked by `ExecMovingRegionFuncs` (no trace event carries it), no fatal
error occurs (a trace is still produced), and every other registered
region that fits both frames and moves is still processed. -/
theorem out_of_bounds_region_skipped {Img F : Type} (ops : ImgOps Img)
    (st : ROIHandler Img F) (new_image old_image : Img) (R : ROI)
    (hreg : R ∈ st.ROIDict.map Prod.fst)
    (hfail : ROIHandler.CheckRegionFits ops st R new_image = false ∨
             ROIHandler.CheckRegionFits ops st R old_image = false) :
    R ∉ (ROIHandler.getRegionsMoving ops st new_image old_image).1 ∧
    (∃ trace,
        (ROIHandler.ExecMovingRegionFuncs ops st new_image old_image).1 =
          some trace ∧ ∀ e ∈ trace, e.2.1 ≠ R) ∧
    (∀ S, S ∈ st.ROIDict.map Prod.fst →
        ROIHandler.CheckRegionFits ops st S new_image = true →
        ROIHandler.CheckRegionFits ops st S old_image = true →
        st.motionDetector.isMoving
          (ops.crop new_image S.x S.y S.width S.height)
          (ops.crop old_image S.x S.y S.width S.height) = true →
        S ∈ (ROIHandler.getRegionsMoving ops st new_image old_image).1) := by
  have hnotmem :
      R ∉ (ROIHandler.getRegionsMoving ops st new_image old_image).1 := by
    intro hmem
    obtain ⟨-, hnew, hold, -⟩ :=
      (ROIHandler.mem_getRegionsMoving_iff ops st new_image old_image R).mp
        hmem
    rcases hfail with hf | hf
    · rw [hnew] at hf; cases hf
    · rw [hold] at hf; cases hf
  refine ⟨hnotmem, ?_, ?_⟩
  · obtain ⟨trace, htr, hrel⟩ :=
      mapM_option_forall2
        (fun m => (ROIHandler.ExecRegionFunc st m old_image).1)
        (ROIHandler.getRegionsMoving ops st new_image old_image).1
        (fun m hm => by
          obtain ⟨f, hf⟩ := dictLookup_isSome_of_mem_keys st.ROIDict m
            (ROIHandler.getRegionsMoving_subset_keys ops st new_image
              old_image m hm)
          exact ⟨(f, m, old_image), by simp [ROIHandler.ExecRegionFunc, hf]⟩)
    refine ⟨trace, htr, ?_⟩
    intro e he
    obtain ⟨m, hm, hme⟩ := forall2_mem_right hrel e he
    rcases hl : dictLookup st.ROIDict m with _ | f
    · simp [ROIHandler.ExecRegionFunc, hl] at hme
    · simp only [ROIHandler.ExecRegionFunc, hl, Option.map_some'] at hme
      have he2 : e = (f, m, old_image) := (Option.some.inj hme).symm
      rw [he2]
      intro hmr
      have hmr' : m = R := hmr
      exact hnotmem (hmr' ▸ hm)
  · intro S hS hnew hold hmov
    exact (ROIHandler.mem_getRegionsMoving_iff ops st new_image
      old_image S).mpr ⟨hS, hnew, hold, hmov⟩

/-- C3 witness: in the sample mockup dispatcher over 10×10 frames, the
20×20 region is skipped without aborting and without its callback ever
being invoked, while the fitting regions are still processed. -/
theorem out_of_bounds_region_skipped_witness :
    sampleRegionBig ∉
      (ROIHandler.getRegionsMoving simpleImageOps sampleHandlerMock
        sampleNewFrame sampleOldFrame).1 ∧
    (∃ trace,
        (ROIHandler.ExecMovingRegionFuncs simpleImageOps sampleHandlerMock
          sampleNewFrame sampleOldFrame).1 = some trace ∧
        ∀ e ∈ trace, e.2.1 ≠ sampleRegionBig) ∧
    (∀ S, S ∈ sampleHandlerMock.ROIDict.map Prod.fst →
        ROIHandler.CheckRegionFits simpleImageOps sampleHandlerMock S
          sampleNewFrame = true →
        ROIHandler.CheckRegionFits simpleImageOps sampleHandlerMock S
          sampleOldFrame = true →
        sampleHandlerMock.motionDetector.isMoving
          (simpleImageOps.crop sampleNewFrame S.x S.y S.width S.height)
          (simpleImageOps.crop sampleOldFrame S.x S.y S.width S.height)
          = true →
        S ∈ (ROIHandler.getRegionsMoving simpleImageOps sampleHandlerMock
          sampleNewFrame sampleOldFrame).1) :=
  out_of_bounds_region_skipped simpleImageOps sampleHandlerMock
    sampleNewFrame sampleOldFrame sampleRegionBig (by decide)
    (Or.inl (by decide))

/-- C4: `ExecMovingRegionFuncs` first computes the regions with motion,
then invokes each such region's mapped callback exactly once, passing the
region and the OLD frame: the emitted trace pairs the moving-region list
elementwise with events `(mapped callback, region, old frame)`, and the
moving-region list has no duplicates (given distinct object identities in
the registration table). -/
theorem dispatch_invokes_callbacks_once_with_old_frame {Img F : Type}
    (ops : ImgOps Img) (st : ROIHandler Img F) (new_image old_image : Img)
    (wf : (st.ROIDict.map Prod.fst).Pairwise fun a b => a.oid ≠ b.oid) :
    ∃ trace,
      (ROIHandler.ExecMovingRegionFuncs ops st new_image old_image).1 =
        some trace ∧
      List.Forall₂
        (fun m e => dictLookup st.ROIDict m = some e.1 ∧
          e.2.1 = m ∧ e.2.2 = old_image)
        (ROIHandler.getRegionsMoving ops st new_image old_image).1 trace ∧
      (ROIHandler.getRegionsMoving ops st new_image old_image).1.Nodup := by
  obtain ⟨trace, htr, hrel⟩ :=
    mapM_option_forall2
      (fun m => (ROIHandler.ExecRegionFunc st m old_image).1)
      (ROIHandler.getRegionsMoving ops st new_image old_image).1
      (fun m hm => by
        obtain ⟨f, hf⟩ := dictLookup_isSome_of_mem_keys st.ROIDict m
          (ROIHandler.getRegionsMoving_subset_keys ops st new_image
            old_image m hm)
        exact ⟨(f, m, old_image), by simp [ROIHandler.ExecRegionFunc, hf]⟩)
  refine ⟨trace, htr, hrel.imp ?_, ?_⟩
  · intro m e hme
    rcases hl : dictLookup st.ROIDict m with _ | f
    · simp [ROIHandler.ExecRegionFunc, hl] at hme
    · simp only [ROIHandler.ExecRegionFunc, hl, Option.map_some'] at hme
      have he2 : e = (f, m, old_image) := (Option.some.inj hme).symm
      rw [he2]
      exact ⟨rfl, rfl, rfl⟩
  · have hkeys : (st.ROIDict.map Prod.fst).Nodup :=
      wf.imp fun hab h => hab (congrArg ROI.oid h)
    exact hkeys.filter _

/-- C4 witness: in the sample mockup dispatcher the fitting region's
callback (numbered 2) is invoked exactly once with the old frame. -/
theorem dispatch_invokes_callbacks_once_with_old_frame_witness :
    ∃ trace,
      (ROIHandler.ExecMovingRegionFuncs simpleImageOps sampleHandlerMock
        sampleNewFrame sampleOldFrame).1 = some trace ∧
      List.Forall₂
        (fun m e => dictLookup sampleHandlerMock.ROIDict m = some e.1 ∧
          e.2.1 = m ∧ e.2.2 = sampleOldFrame)
        (ROIHandler.getRegionsMoving simpleImageOps sampleHandlerMock
          sampleNewFrame sampleOldFrame).1 trace ∧
      (ROIHandler.getRegionsMoving simpleImageOps sampleHandlerMock
        sampleNewFrame sampleOldFrame).1.Nodup :=
  dispatch_invokes_callbacks_once_with_old_frame simpleImageOps
    sampleHandlerMock sampleNewFrame sampleOldFrame (by decide)

/-- C8: with the always-true mockup strategy installed, every registered
region that fits both supplied frames appears in `getRegionsMoving`'s
output, regardless of frame contents. -/
theorem mockup_every_fitting_region_reported {Img F : Type}
    (ops : ImgOps Img) (st : ROIHandler Img F) (new_image old_image : Img)
    (R : ROI)
    (hdet : st.motionDetector =
      MotionDetector.init
        (some fun a b => MotionDetectorByMockup.isMoving a b))
    (hreg : R ∈ st.ROIDict.map Prod.fst)
    (hnew : ROIHandler.CheckRegionFits ops st R new_image = true)
    (hold : ROIHandler.CheckRegionFits ops st R old_image = true) :
    R ∈ (ROIHandler.getRegionsMoving ops st new_image old_image).1 :=
  (ROIHandler.mem_getRegionsMoving_iff ops st new_image old_image R).mpr
    ⟨hreg, hnew, hold, by rw [hdet]; rfl⟩

/-- C8 witness: the 5×5 region fits the sample 10×10 frames and is
reported moving by the mockup dispatcher. -/
theorem mockup_every_fitting_region_reported_witness :
    sampleRegionSmall ∈
      (ROIHandler.getRegionsMoving simpleImageOps sampleHandlerMock
        sampleNewFrame sampleOldFrame).1 :=
  mockup_every_fitting_region_reported simpleImageOps sampleHandlerMock
    sampleNewFrame sampleOldFrame sampleRegionSmall rfl (by decide)
    (by decide) (by decide)

/-- C9: registering callbacks on two distinct ROI objects (different
object identities) with identical x, y, width and height fields yields
two independent dispatcher entries — each region's own callback remains
the one invoked for it, and neither registration overwrites the other. -/
theorem identity_keyed_registrations_independent {Img F : Type}
    (st : ROIHandler Img F) (r1 r2 : ROI) (f1 f2 : F) (image : Img)
    (hoid : r1.oid ≠ r2.oid) (hx : r1.x = r2.x) (hy : r1.y = r2.y)
    (hw : r1.width = r2.width) (hh : r1.height = r2.height) :
    (((st.MapRegionToFunc r1 f1).MapRegionToFunc r2 f2).ExecRegionFunc
        r1 image).1 = some (f1, r1, image) ∧
    (((st.MapRegionToFunc r1 f1).MapRegionToFunc r2 f2).ExecRegionFunc
        r2 image).1 = some (f2, r2, image) := by
  constructor
  · show (dictLookup (dictInsert (dictInsert st.ROIDict r1 f1) r2 f2)
        r1).map (fun func => (func, r1, image)) = some (f1, r1, image)
    rw [dictLookup_dictInsert_ne _ _ _ _ (Ne.symm hoid),
      dictLookup_dictInsert_self]
    rfl
  · show (dictLookup (dictInsert (dictInsert st.ROIDict r1 f1) r2 f2)
        r2).map (fun func => (func, r2, image)) = some (f2, r2, image)
    rw [dictLookup_dictInsert_self]
    rfl

/-- C9 witness: the twin regions (ids 3 and 4, identical geometry) keep
independent callbacks 10 and 20 after both registrations. -/
theorem identity_keyed_registrations_independent_witness :
    ((((ROIHandler.init none : ROIHandler SimpleImage Nat).MapRegionToFunc
        sampleRegionTwinA 10).MapRegionToFunc sampleRegionTwinB
        20).ExecRegionFunc sampleRegionTwinA sampleNewFrame).1 =
      some (10, sampleRegionTwinA, sampleNewFrame) ∧
    ((((ROIHandler.init none : ROIHandler SimpleImage Nat).MapRegionToFunc
        sampleRegionTwinA 10).MapRegionToFunc sampleRegionTwinB
        20).ExecRegionFunc sampleRegionTwinB sampleNewFrame).1 =
      some (20, sampleRegionTwinB, sampleNewFrame) :=
  identity_keyed_registrations_independent _ sampleRegionTwinA
    sampleRegionTwinB 10 20 sampleNewFrame (by decide) rfl rfl rfl rfl

/-- C10: the read-side dispatch operations leave the handler unchanged —
after `getRegionsMoving` or `ExecMovingRegionFuncs` the region-to-callback
mapping and the held `MotionDetector` are exactly as before the call;
only `MapRegionToFunc` writes to the mapping. -/
theorem dispatch_reads_leave_handler_unchanged {Img F : Type}
    (ops : ImgOps Img) (st : ROIHandler Img F) (new_image old_image : Img) :
    (ROIHandler.getRegionsMoving ops st new_image old_image).2.ROIDict =
      st.ROIDict ∧
    (ROIHandler.getRegionsMoving ops st new_image
      old_image).2.motionDetector = st.motionDetector ∧
    (ROIHandler.ExecMovingRegionFuncs ops st new_image
      old_image).2.ROIDict = st.ROIDict ∧
    (ROIHandler.ExecMovingRegionFuncs ops st new_image
      old_image).2.motionDetector = st.motionDetector :=
  ⟨rfl, rfl, rfl, rfl⟩
